import Mathlib

/-!
Verification development for the Beast X configuration application
(`beastx_app.py`): a shallow embedding of its packet catalog, device
transport layer, configuration mutations and JSON-config persistence,
together with theorems settling the specification claims.
-/

namespace BeastX

/-! ### Packet catalog (`POLL_PACKETS`, `LOD_PACKETS`, `pad_packet`) -/

/-- Mirrors `REPORT_SIZE = 64` from the source. -/
def REPORT_SIZE : Nat := 64

/-- Mirrors the `POLL_PACKETS` dict: the exact 32-byte literal report for each
valid polling-rate key, `none` for any key not in the dict
(Python `hz in POLL_PACKETS` is false). -/
def POLL_PACKETS (hz : Nat) : Option (List Nat) :=
  if hz = 125 then
    some [0x04,0x73,0x02,0x06,0x18,0x00,0x00,0x00,0x00,0x04,0x04,0x04,0x00,0x00,0x21,0x00,
          0x95,0x01,0x00,0x00,0x00,0x00,0x01,0x00,0x40,0x06,0x40,0x06,0x10,0x00,0xc8,0x01]
  else if hz = 250 then
    some [0x04,0x71,0x83,0x06,0x18,0x00,0x00,0x00,0x00,0x04,0x04,0x04,0x00,0x00,0x21,0x00,
          0x95,0x01,0x00,0x01,0x00,0x00,0x01,0x00,0x40,0x06,0x40,0x06,0x10,0x00,0xc8,0x01]
  else if hz = 500 then
    some [0x04,0x74,0x40,0x06,0x18,0x00,0x00,0x00,0x00,0x04,0x04,0x04,0x00,0x00,0x21,0x00,
          0x95,0x01,0x00,0x02,0x00,0x00,0x01,0x00,0x40,0x06,0x40,0x06,0x10,0x00,0xc8,0x01]
  else if hz = 1000 then
    some [0x04,0x76,0xc1,0x06,0x18,0x00,0x00,0x00,0x00,0x04,0x04,0x04,0x00,0x00,0x21,0x00,
          0x95,0x01,0x00,0x03,0x00,0x00,0x01,0x00,0x40,0x06,0x40,0x06,0x10,0x00,0xc8,0x01]
  else if hz = 2000 then
    some [0x04,0x7d,0x86,0x06,0x18,0x00,0x00,0x00,0x00,0x04,0x04,0x04,0x00,0x00,0x21,0x00,
          0x95,0x01,0x00,0x04,0x00,0x00,0x01,0x00,0x40,0x06,0x40,0x06,0x10,0x00,0xc8,0x01]
  else if hz = 4000 then
    some [0x04,0x7f,0x07,0x06,0x18,0x00,0x00,0x00,0x00,0x04,0x04,0x04,0x00,0x00,0x21,0x00,
          0x95,0x01,0x00,0x05,0x00,0x00,0x01,0x00,0x40,0x06,0x40,0x06,0x10,0x00,0xc8,0x01]
  else none

/-- Mirrors the `LOD_PACKETS` dict (key 0 is the 1 mm report, key 1 the 2 mm
report). -/
def LOD_PACKETS (lod : Nat) : Option (List Nat) :=
  if lod = 0 then
    some [0x04,0x76,0xc1,0x06,0x18,0x00,0x00,0x00,0x00,0x04,0x04,0x04,0x00,0x00,0x21,0x00,
          0x95,0x01,0x00,0x03,0x00,0x00,0x01,0x00,0x40,0x06,0x40,0x06,0x10,0x00,0xc8,0x01]
  else if lod = 1 then
    some [0x04,0x72,0x3d,0x06,0x18,0x00,0x00,0x00,0x00,0x04,0x04,0x04,0x00,0x00,0x21,0x00,
          0x95,0x01,0x00,0x03,0x00,0x01,0x01,0x00,0x40,0x06,0x40,0x06,0x10,0x00,0xc8,0x01]
  else none

/-- Mirrors `pad_packet`: `buf = bytearray(REPORT_SIZE); buf[:len(data)] = data`.
For `len(data) <= 64` this is `data` followed by zeros up to 64 bytes; for
longer data the Python slice assignment grows the buffer to exactly `data`
(the truncated `Nat` subtraction reproduces that case as well). -/
def pad_packet (data : List Nat) : List Nat :=
  data ++ List.replicate (REPORT_SIZE - data.length) 0

/-! ### Device layer (`BeastXDevice`) -/

/-- Environment a `BeastXDevice.send` call runs in: whether `self._dev` is
open, the integer result the platform `write` would return, and the text
`self._dev.error()` would produce. -/
structure DevEnv where
  connected : Bool
  writeResult : Int
  errText : String
  deriving Repr, DecidableEq

/-- Mirrors `BeastXDevice.send`: raises `Not connected` when `self._dev` is
`None`; writes `bytes([0x00]) + pad_packet(packet)` and raises
`Write failed: {error}` when the write result is negative; otherwise returns
the write result. The packet bytes do not influence the outcome in the
source either (fire-and-forget write). -/
def deviceSend (dev : DevEnv) (packet : List Nat) : Except String Int :=
  if dev.connected = false then .error "Not connected"
  else if dev.writeResult < 0 then .error ("Write failed: " ++ dev.errText)
  else .ok dev.writeResult

/-- Mirrors `BeastXDevice.set_poll_rate`: `ValueError` for a key outside
`POLL_PACKETS`, otherwise `send(POLL_PACKETS[hz])`. -/
def deviceSetPollRate (dev : DevEnv) (hz : Nat) : Except String Int :=
  match POLL_PACKETS hz with
  | none => .error ("Invalid polling rate: " ++ toString hz)
  | some p => deviceSend dev p

/-- Mirrors `BeastXDevice.set_lod`: `ValueError` for a key outside
`LOD_PACKETS`, otherwise `send(LOD_PACKETS[lod])`. -/
def deviceSetLod (dev : DevEnv) (lod : Nat) : Except String Int :=
  match LOD_PACKETS lod with
  | none => .error ("Invalid LOD: " ++ toString lod)
  | some p => deviceSend dev p

/-! ### In-memory configuration and the `BeastXApp` mutation handlers -/

/-- The four fields of `self.config` as the app manipulates them. -/
structure Config where
  dpi_profiles : List Int
  active_dpi : Nat
  poll_rate : Nat
  lod : Nat
  deriving Repr, DecidableEq

/-- Mirrors `DEFAULT_CONFIG` at the field level. -/
def defaultConfig : Config :=
  { dpi_profiles := [400, 800, 1600, 3200], active_dpi := 1, poll_rate := 1000, lod := 0 }

/-- App-side state: the in-memory `self.config` and the last dict passed to
`save_config` (the persisted file contents). -/
structure AppState where
  config : Config
  saved : Config
  deriving Repr, DecidableEq

/-- Default state right after `load_config()` on a fresh install. -/
def defaultState : AppState := { config := defaultConfig, saved := defaultConfig }

/-- Outcome toast produced by `BeastXApp._send`: `✓  msg` on success and
`✗  {exception}` on failure (`ok=False`). -/
inductive Notification where
  | success (msg : String)
  | failure (msg : String)
  deriving Repr, DecidableEq

/-- Mirrors the body of `BeastXApp._send`: run the device call, toast
`✓  success_msg` if it returns, toast `✗  {e}` if it raises. The handler
touches no configuration state. -/
def appSendOutcome (r : Except String Int) (successMsg : String) : Notification :=
  match r with
  | .ok _ => .success ("✓  " ++ successMsg)
  | .error e => .failure ("✗  " ++ e)

/-- Mirrors `BeastXApp._set_poll`: unconditionally store `hz` in
`self.config["poll_rate"]`, `save_config`, then dispatch
`self.device.set_poll_rate(hz)` through `_send` (button restyling omitted:
it reads no configuration and writes none). -/
def appSetPoll (st : AppState) (dev : DevEnv) (hz : Nat) : AppState × Notification :=
  let cfg := { st.config with poll_rate := hz }
  ({ config := cfg, saved := cfg },
   appSendOutcome (deviceSetPollRate dev hz) ("Polling rate → " ++ toString hz ++ " Hz"))

/-- Rounding performed by `BeastXApp._dpi_slide`:
`round(float(value) / 50)` — Python `round`, which rounds halves to the even
integer. For an integer input `n = 50*q + r` with `0 ≤ r < 50` this is `q`
when `r < 25`, `q + 1` when `r > 25`, and the even one of `q, q + 1` at the
tie (all tie quotients `k + 0.5` are exact in binary floating point, so the
float division introduces no deviation for integer slider values). -/
def pyRound50 (n : Int) : Int :=
  let q := n / 50
  let r := n % 50
  if r < 25 then q
  else if 25 < r then q + 1
  else if q % 2 = 0 then q else q + 1

/-- Mirrors the value computation of `BeastXApp._dpi_slide`:
`v = round(float(value) / 50) * 50; v = max(50, min(26000, v))`. -/
def dpiSlide (n : Int) : Int :=
  max 50 (min 26000 (pyRound50 n * 50))

/-- Mirrors `BeastXApp._dpi_slide` at the state level: store the rounded,
clamped value at `idx` and persist (the label update touches no
configuration). -/
def appDpiSlide (st : AppState) (idx : Nat) (raw : Int) : AppState :=
  let cfg := { st.config with dpi_profiles := st.config.dpi_profiles.set idx (dpiSlide raw) }
  { config := cfg, saved := cfg }

/-- Mirrors `BeastXApp._set_active_dpi`: store `idx` in
`self.config["active_dpi"]` and `save_config`, with no range check of any
kind. The toast afterwards evaluates `dpi_profiles[idx]`, which for
`idx ≥ len` raises only after the new value has been persisted. -/
def appSetActiveDpi (st : AppState) (idx : Nat) : AppState :=
  let cfg := { st.config with active_dpi := idx }
  { config := cfg, saved := cfg }

/-- Mirrors `BeastXApp._add_dpi`: silently return when five profiles exist
(no exception, no toast), else append `1600` and persist. The second
component is the failure toast shown by the handler: always `none` here. -/
def appAddDpi (st : AppState) : AppState × Option String :=
  if 5 ≤ st.config.dpi_profiles.length then (st, none)
  else
    let cfg := { st.config with dpi_profiles := st.config.dpi_profiles ++ [1600] }
    ({ config := cfg, saved := cfg }, none)

/-- Mirrors `BeastXApp._del_dpi`: when only one profile remains, toast
`Need at least one profile` (with `ok=False`) and change nothing; otherwise
`pop(idx)`, clamp `active_dpi` to the last index when it fell off the end,
and persist. -/
def appDelDpi (st : AppState) (idx : Nat) : AppState × Option String :=
  if st.config.dpi_profiles.length ≤ 1 then (st, some "Need at least one profile")
  else
    let ps := st.config.dpi_profiles.eraseIdx idx
    let a := if ps.length ≤ st.config.active_dpi then ps.length - 1 else st.config.active_dpi
    let cfg := { st.config with dpi_profiles := ps, active_dpi := a }
    ({ config := cfg, saved := cfg }, none)

/-- Invariant stated in the specification for `active_dpi` (the lower bound
is carried by `Nat`). -/
abbrev activeInv (c : Config) : Prop := c.active_dpi < c.dpi_profiles.length

/-! ### Config persistence (`load_config`, `save_config`)

The persisted file is a JSON object. `load_config` parses it and runs
`merged = dict(DEFAULT_CONFIG); merged.update(data); return merged`, so the
relevant semantics is that of Python `dict.update` on string-keyed maps. We
embed JSON objects as association lists without duplicate keys, with the
value universe the file actually uses (integers and integer lists). -/

/-- JSON values occurring in the config file. -/
inductive JVal where
  | jint (n : Int)
  | jlist (l : List Int)
  deriving Repr, DecidableEq

/-- A parsed JSON object: keys in insertion order with their values. -/
abbrev JObj : Type := List (String × JVal)

/-- Python `d[k] = v` on a dict: replace the value of an existing key in
place, append a fresh key at the end. -/
def setKey : JObj → String → JVal → JObj
  | [], k, v => [(k, v)]
  | (k', v') :: rest, k, v =>
    if k' = k then (k, v) :: rest else (k', v') :: setKey rest k v

/-- Python `d.update(data)`: assign every key/value pair of `data` into `d`
in iteration order. -/
def pyUpdate (d : JObj) (data : JObj) : JObj :=
  data.foldl (fun acc kv => setKey acc kv.1 kv.2) d

/-- Python `d.get(k)` / `k in d`: the value stored under `k`, if any. -/
def getKey (d : JObj) (k : String) : Option JVal :=
  ((d.find? (fun kv => kv.1 = k)).map Prod.snd)

/-- Mirrors the `DEFAULT_CONFIG` dict literal. -/
def DEFAULT_CONFIG : JObj :=
  [("dpi_profiles", .jlist [400, 800, 1600, 3200]),
   ("active_dpi", .jint 1),
   ("poll_rate", .jint 1000),
   ("lod", .jint 0)]

/-- Mirrors `load_config`. The argument is the outcome of reading and
parsing `CONFIG_PATH` into a JSON object: `none` when the file is missing,
unreadable, fails to parse, or is not an object (every such case either
skips the `if CONFIG_PATH.exists()` body or lands in the `except` clause),
`some data` for a parsed object. On success the parsed object is merged
over a copy of the defaults with `dict.update`. -/
def load_config (file : Option JObj) : JObj :=
  match file with
  | none => DEFAULT_CONFIG
  | some data => pyUpdate DEFAULT_CONFIG data

/-- Mirrors `save_config`: `json.dump(cfg, f)` writes the dict verbatim, and
integers and integer lists survive a JSON dump/parse round trip unchanged,
so the file content that a later `load_config` parses is the dict itself. -/
def save_config (cfg : JObj) : Option JObj := some cfg

/-- The four configuration field names, in the order `DEFAULT_CONFIG`
declares them. -/
def configKeys : List String := ["dpi_profiles", "active_dpi", "poll_rate", "lod"]

/-- Valid persisted Configuration per the data-model section: exactly the
four fields, 1 to 5 profiles each a multiple of 50 in [50, 26000], an
in-range active index, a catalog polling rate and a catalog lift-off key. -/
def validConfig (c : JObj) : Prop :=
  (c.map Prod.fst).Nodup ∧
  (∀ kv ∈ c, kv.1 ∈ configKeys) ∧
  (∃ l : List Int, getKey c "dpi_profiles" = some (.jlist l) ∧
    1 ≤ l.length ∧ l.length ≤ 5 ∧
    ∀ x ∈ l, 50 ≤ x ∧ x ≤ 26000 ∧ x % 50 = 0) ∧
  (∃ a : Nat, ∃ l : List Int, getKey c "dpi_profiles" = some (.jlist l) ∧
    getKey c "active_dpi" = some (.jint a) ∧ a < l.length) ∧
  (∃ hz : Nat, getKey c "poll_rate" = some (.jint hz) ∧ (POLL_PACKETS hz).isSome) ∧
  (∃ lod : Nat, getKey c "lod" = some (.jint lod) ∧ (LOD_PACKETS lod).isSome)

/-! ### Helper lemmas -/

theorem getKey_cons (k0 k : String) (v : JVal) (d : JObj) :
    getKey ((k0, v) :: d) k = if k0 = k then some v else getKey d k := by
  by_cases h : k0 = k <;> simp [getKey, List.find?_cons, h]

theorem getKey_eq_none_of_not_mem (d : JObj) (k : String)
    (h : k ∉ d.map Prod.fst) : getKey d k = none := by
  induction d with
  | nil => rfl
  | cons kv rest ih =>
    obtain ⟨k0, v0⟩ := kv
    simp only [List.map_cons, List.mem_cons, not_or] at h
    rw [getKey_cons, if_neg (fun hc => h.1 hc.symm), ih h.2]

theorem getKey_setKey (d : JObj) (k0 k : String) (v : JVal) :
    getKey (setKey d k0 v) k = if k0 = k then some v else getKey d k := by
  induction d with
  | nil => by_cases h : k0 = k <;> simp [setKey, getKey, List.find?_cons, h]
  | cons kv rest ih =>
    obtain ⟨k1, v1⟩ := kv
    simp only [setKey]
    by_cases h1 : k1 = k0
    · subst h1
      by_cases h2 : k1 = k <;> simp [getKey_cons, h2]
    · rw [if_neg h1, getKey_cons, getKey_cons, ih]
      by_cases h2 : k1 = k
      · subst h2
        rw [if_pos rfl, if_neg (fun hc => h1 hc.symm), if_pos rfl]
      · rw [if_neg h2, if_neg h2]

theorem getKey_pyUpdate (data : JObj) :
    ∀ d : JObj, (data.map Prod.fst).Nodup → ∀ k : String,
      getKey (pyUpdate d data) k =
        match getKey data k with
        | some v => some v
        | none => getKey d k := by
  induction data with
  | nil => intro d _ k; rfl
  | cons kv rest ih =>
    intro d hnd k
    obtain ⟨k0, v0⟩ := kv
    simp only [List.map_cons, List.nodup_cons] at hnd
    have step : pyUpdate d ((k0, v0) :: rest) = pyUpdate (setKey d k0 v0) rest := rfl
    rw [step, ih (setKey d k0 v0) hnd.2 k, getKey_cons]
    by_cases h : k0 = k
    · subst h
      have hrest : getKey rest k0 = none :=
        getKey_eq_none_of_not_mem rest k0 hnd.1
      rw [hrest, if_pos rfl, getKey_setKey, if_pos rfl]
    · rw [if_neg h]
      cases hr : getKey rest k
      · simp only [getKey_setKey, if_neg h]
      · rfl

theorem dpiSlide_spec (n : Int) :
    50 ≤ dpiSlide n ∧ dpiSlide n ≤ 26000 ∧ dpiSlide n % 50 = 0 ∧
    ∀ m : Int, m % 50 = 0 → 50 ≤ m → m ≤ 26000 →
      (dpiSlide n - n).natAbs ≤ (m - n).natAbs := by
  refine ⟨?_, ?_, ?_, ?_⟩ <;>
    simp only [dpiSlide, pyRound50] <;>
    [skip; skip; skip; intro m hm h50 h26000] <;>
    split_ifs <;> omega

/-! ### Claim theorems -/

/-- Claim C2: for every valid poll-rate key, the padded catalog report is
exactly 64 bytes, its byte 0 is the command-class marker 0x04, and every
byte past the stored literal (all of bytes 32 to 63) is zero. -/
theorem C2_poll_report_shape (hz : Nat) (p : List Nat)
    (h : POLL_PACKETS hz = some p) :
    (pad_packet p).length = 64 ∧ (pad_packet p).headD 0 = 0x04 ∧
    ∀ i : Nat, i < 64 → p.length ≤ i → (pad_packet p).getD i 1 = 0 := by
  unfold POLL_PACKETS at h
  split_ifs at h <;> simp only [Option.some.injEq] at h <;> subst h <;> decide

/-- Claim C2 witness: shape facts for the 1000 Hz report. -/
theorem C2_poll_report_shape_witness :
    (pad_packet [0x04,0x76,0xc1,0x06,0x18,0x00,0x00,0x00,0x00,0x04,0x04,0x04,0x00,0x00,0x21,0x00,
      0x95,0x01,0x00,0x03,0x00,0x00,0x01,0x00,0x40,0x06,0x40,0x06,0x10,0x00,0xc8,0x01]).length = 64 ∧
    (pad_packet [0x04,0x76,0xc1,0x06,0x18,0x00,0x00,0x00,0x00,0x04,0x04,0x04,0x00,0x00,0x21,0x00,
      0x95,0x01,0x00,0x03,0x00,0x00,0x01,0x00,0x40,0x06,0x40,0x06,0x10,0x00,0xc8,0x01]).headD 0 = 0x04 ∧
    (pad_packet [0x04,0x76,0xc1,0x06,0x18,0x00,0x00,0x00,0x00,0x04,0x04,0x04,0x00,0x00,0x21,0x00,
      0x95,0x01,0x00,0x03,0x00,0x00,0x01,0x00,0x40,0x06,0x40,0x06,0x10,0x00,0xc8,0x01]).getD 50 1 = 0 := by
  have h := C2_poll_report_shape 1000
    [0x04,0x76,0xc1,0x06,0x18,0x00,0x00,0x00,0x00,0x04,0x04,0x04,0x00,0x00,0x21,0x00,
     0x95,0x01,0x00,0x03,0x00,0x00,0x01,0x00,0x40,0x06,0x40,0x06,0x10,0x00,0xc8,0x01] rfl
  exact ⟨h.1, h.2.1, h.2.2 50 (by decide) (by decide)⟩

/-- Claim C4: the stored lift-off report for key 0 (1 mm) is byte-for-byte
the stored poll-rate report for key 1000, so the two settings send
indistinguishable wire packets after padding as well. -/
theorem C4_lod0_equals_poll1000 :
    LOD_PACKETS 0 = POLL_PACKETS 1000 ∧
    (LOD_PACKETS 0).map pad_packet = (POLL_PACKETS 1000).map pad_packet := by
  decide

/-- Claim C8: `load_config` on a missing or unparseable file returns exactly
the default Configuration (profiles [400, 800, 1600, 3200], active 1, poll
1000, lift-off 0); on a file holding only `poll_rate = 500` it returns every
other field at its default and `poll_rate = 500`. -/
theorem C8_load_defaults :
    load_config none = DEFAULT_CONFIG ∧
    DEFAULT_CONFIG =
      [("dpi_profiles", .jlist [400, 800, 1600, 3200]),
       ("active_dpi", .jint 1),
       ("poll_rate", .jint 1000),
       ("lod", .jint 0)] ∧
    load_config (some [("poll_rate", .jint 500)]) =
      [("dpi_profiles", .jlist [400, 800, 1600, 3200]),
       ("active_dpi", .jint 1),
       ("poll_rate", .jint 500),
       ("lod", .jint 0)] := by
  refine ⟨rfl, rfl, ?_⟩
  decide

/-- Claim C1: when the device write fails after a poll-rate change, the
persisted Configuration keeps the new setting (the failure handler only
toasts and rolls nothing back) and the failure notification carries the
transport error text. -/
theorem C1_send_failure_keeps_config (st : AppState) (dev : DevEnv) (hz : Nat)
    (p : List Nat) (hconn : dev.connected = true) (hfail : dev.writeResult < 0)
    (hvalid : POLL_PACKETS hz = some p) :
    (appSetPoll st dev hz).1.config = { st.config with poll_rate := hz } ∧
    (appSetPoll st dev hz).1.saved = { st.config with poll_rate := hz } ∧
    (appSetPoll st dev hz).2 = .failure ("✗  Write failed: " ++ dev.errText) ∧
    ∃ pre post : String,
      "✗  Write failed: " ++ dev.errText = pre ++ dev.errText ++ post := by
  refine ⟨rfl, rfl, ?_, "✗  Write failed: ", "", by simp⟩
  simp [appSetPoll, deviceSetPollRate, hvalid, deviceSend, hconn, hfail,
    appSendOutcome, ← String.append_assoc]

/-- Claim C1 witness: a failing write (result -1, error text `boom`) after
setting 1000 Hz leaves the persisted poll rate at 1000 and yields the
failure toast containing `boom`. -/
theorem C1_send_failure_keeps_config_witness :
    (appSetPoll defaultState ⟨true, -1, "boom"⟩ 1000).1.saved =
      { defaultState.config with poll_rate := 1000 } ∧
    (appSetPoll defaultState ⟨true, -1, "boom"⟩ 1000).2 =
      .failure ("✗  Write failed: " ++ "boom") := by
  have h := C1_send_failure_keeps_config defaultState ⟨true, -1, "boom"⟩ 1000
    [0x04,0x76,0xc1,0x06,0x18,0x00,0x00,0x00,0x00,0x04,0x04,0x04,0x00,0x00,0x21,0x00,
     0x95,0x01,0x00,0x03,0x00,0x00,0x01,0x00,0x40,0x06,0x40,0x06,0x10,0x00,0xc8,0x01]
    rfl (by decide) rfl
  exact ⟨h.2.1, h.2.2.1⟩

/-- Claim C3 counterexample: the app-level handler `_set_poll` persists the
requested rate before any validation, so calling it with the invalid key
300 changes the in-memory and persisted Configuration to 300, contradicting
the claim that the Configuration is unchanged for invalid keys. -/
theorem C3_counterexample :
    POLL_PACKETS 300 = none ∧
    defaultState.config.poll_rate = 1000 ∧
    (appSetPoll defaultState ⟨true, 1, ""⟩ 300).1.config.poll_rate = 300 ∧
    (appSetPoll defaultState ⟨true, 1, ""⟩ 300).1.saved.poll_rate = 300 := by
  decide

/-- Claim C3 as amended: for a key outside the catalog,
`BeastXDevice.set_poll_rate` raises `Invalid polling rate` without touching
the transport (its outcome is independent of the device state, so no write
is ever attempted), while `BeastXApp._set_poll` stores and persists the
invalid key before dispatching and then reports the validation failure
asynchronously. -/
theorem C3_invalid_poll_rate (dev : DevEnv) (hz : Nat) (st : AppState)
    (h : POLL_PACKETS hz = none) :
    deviceSetPollRate dev hz = .error ("Invalid polling rate: " ++ toString hz) ∧
    (∀ dev2 : DevEnv, deviceSetPollRate dev2 hz = deviceSetPollRate dev hz) ∧
    (appSetPoll st dev hz).1.config = { st.config with poll_rate := hz } ∧
    (appSetPoll st dev hz).1.saved = { st.config with poll_rate := hz } ∧
    (appSetPoll st dev hz).2 =
      .failure ("✗  " ++ ("Invalid polling rate: " ++ toString hz)) := by
  refine ⟨?_, ?_, rfl, rfl, ?_⟩
  · simp [deviceSetPollRate, h]
  · intro dev2; simp [deviceSetPollRate, h]
  · simp [appSetPoll, deviceSetPollRate, h, appSendOutcome]

/-- Claim C3 witness: the amended statement evaluated at the invalid key
300 against a connected, healthy device. -/
theorem C3_invalid_poll_rate_witness :
    deviceSetPollRate ⟨true, 1, ""⟩ 300 =
      .error ("Invalid polling rate: " ++ toString 300) ∧
    (appSetPoll defaultState ⟨true, 1, ""⟩ 300).1.saved =
      { defaultState.config with poll_rate := 300 } := by
  have h := C3_invalid_poll_rate ⟨true, 1, ""⟩ 300 defaultState (by decide)
  exact ⟨h.1, h.2.2.2.1⟩

/-- Claim C5 counterexample: `_set_active_dpi` performs no range check, so
index 10 on the default four-profile configuration is stored and persisted,
breaking the invariant `active_dpi < len(dpi_profiles)`; no OutOfRange
failure happens before the write to disk. -/
theorem C5_counterexample :
    (appSetActiveDpi defaultState 10).config.active_dpi = 10 ∧
    (appSetActiveDpi defaultState 10).saved.active_dpi = 10 ∧
    (appSetActiveDpi defaultState 10).config.dpi_profiles.length = 4 ∧
    (appSetActiveDpi defaultState 10).config.dpi_profiles.length ≤
      (appSetActiveDpi defaultState 10).config.active_dpi := by
  decide

/-- Claim C5 as amended: `_set_active_dpi` unconditionally stores `idx` and
persists (validity is guaranteed only by the UI, which offers one button
per existing profile); for a valid `idx` the invariant is preserved, and
the remaining profile mutations — add, delete (with its clamping of
`active_dpi`), and the slider edit — all preserve
`active_dpi < len(dpi_profiles)`. -/
theorem C5_active_dpi_invariant (st : AppState) (idx : Nat) :
    ((appSetActiveDpi st idx).config = { st.config with active_dpi := idx }) ∧
    ((appSetActiveDpi st idx).saved = (appSetActiveDpi st idx).config) ∧
    (idx < st.config.dpi_profiles.length →
      activeInv (appSetActiveDpi st idx).config) ∧
    (activeInv st.config → activeInv (appAddDpi st).1.config) ∧
    (idx < st.config.dpi_profiles.length → activeInv st.config →
      activeInv (appDelDpi st idx).1.config) ∧
    (∀ raw : Int, activeInv st.config → activeInv (appDpiSlide st idx raw).config) := by
  refine ⟨rfl, rfl, ?_, ?_, ?_, ?_⟩
  · intro h; exact h
  · intro h
    simp only [appAddDpi]
    split
    · exact h
    · simp only [activeInv, List.length_append] at *
      omega
  · intro hidx h
    simp only [appDelDpi]
    split
    · exact h
    · rename_i hgt
      simp only [activeInv] at h ⊢
      have hlen := List.length_eraseIdx st.config.dpi_profiles idx
      rw [if_pos hidx] at hlen
      rw [hlen]
      split_ifs <;> omega
  · intro raw h
    simp only [activeInv, appDpiSlide, List.length_set] at *
    exact h

/-- Claim C5 witness: activating profile 2 of the default configuration
keeps the invariant, as do add, delete and slide. -/
theorem C5_active_dpi_invariant_witness :
    (appSetActiveDpi defaultState 2).config =
      { defaultState.config with active_dpi := 2 } ∧
    activeInv (appSetActiveDpi defaultState 2).config ∧
    activeInv (appDelDpi defaultState 2).1.config := by
  have h := C5_active_dpi_invariant defaultState 2
  exact ⟨h.1, h.2.2.1 (by decide), h.2.2.2.2.1 (by decide) (by decide)⟩

/-- Claim C6: for a valid index the slider handler stores the raw value
rounded to a multiple of 50 and clamped into [50, 26000], persists it, and
the stored value is a closest in-range multiple of 50 to the raw input; in
particular 137 stores 150, 40 stores 50 and 30000 stores 26000. -/
theorem C6_dpi_slide_rounds_and_clamps (st : AppState) (idx : Nat) (raw : Int)
    (h : idx < st.config.dpi_profiles.length) :
    ((appDpiSlide st idx raw).config.dpi_profiles.getD idx 0 = dpiSlide raw) ∧
    ((appDpiSlide st idx raw).saved = (appDpiSlide st idx raw).config) ∧
    (50 ≤ dpiSlide raw ∧ dpiSlide raw ≤ 26000 ∧ dpiSlide raw % 50 = 0) ∧
    (∀ m : Int, m % 50 = 0 → 50 ≤ m → m ≤ 26000 →
      (dpiSlide raw - raw).natAbs ≤ (m - raw).natAbs) ∧
    dpiSlide 137 = 150 ∧ dpiSlide 40 = 50 ∧ dpiSlide 30000 = 26000 := by
  obtain ⟨h1, h2, h3, h4⟩ := dpiSlide_spec raw
  refine ⟨?_, rfl, ⟨h1, h2, h3⟩, h4, by decide, by decide, by decide⟩
  simp only [appDpiSlide, List.getD_eq_getElem?_getD,
    List.getElem?_set_self (by simpa using h)]
  rfl

/-- Claim C6 witness: editing profile 0 of the default configuration with
raw value 137 stores 150, which is the in-range multiple of 50 closest to
137. -/
theorem C6_dpi_slide_rounds_and_clamps_witness :
    (appDpiSlide defaultState 0 137).config.dpi_profiles.getD 0 0 = dpiSlide 137 ∧
    dpiSlide 137 = 150 ∧
    (dpiSlide 137 - 137).natAbs ≤ ((150 : Int) - 137).natAbs := by
  have h := C6_dpi_slide_rounds_and_clamps defaultState 0 137 (by decide)
  exact ⟨h.1, h.2.2.2.2.1, h.2.2.2.1 150 (by decide) (by decide) (by decide)⟩

/-- Claim C7 counterexample: with five profiles stored, `_add_dpi` returns
silently — the state is unchanged but no CapacityExceeded failure of any
kind is raised or shown (the second component, the failure toast, is
`none`; by contrast `_del_dpi` at one profile does produce a toast). -/
theorem C7_counterexample :
    appAddDpi
      { config := { dpi_profiles := [400, 800, 1600, 3200, 6400],
                    active_dpi := 1, poll_rate := 1000, lod := 0 },
        saved := { dpi_profiles := [400, 800, 1600, 3200, 6400],
                   active_dpi := 1, poll_rate := 1000, lod := 0 } } =
      ({ config := { dpi_profiles := [400, 800, 1600, 3200, 6400],
                     active_dpi := 1, poll_rate := 1000, lod := 0 },
         saved := { dpi_profiles := [400, 800, 1600, 3200, 6400],
                    active_dpi := 1, poll_rate := 1000, lod := 0 } }, none) := by
  decide

/-- Claim C7 as amended: `_add_dpi` at five profiles is a silent no-op (no
error is signalled; the UI simply hides the add button), `_del_dpi` at one
profile fails with the `Need at least one profile` toast and leaves the
profile intact, and both operations keep `1 ≤ len(dpi_profiles) ≤ 5`. -/
theorem C7_profile_count_bounds (st : AppState) (idx : Nat) :
    (5 ≤ st.config.dpi_profiles.length → appAddDpi st = (st, none)) ∧
    (st.config.dpi_profiles.length = 1 →
      appDelDpi st idx = (st, some "Need at least one profile")) ∧
    (1 ≤ st.config.dpi_profiles.length → st.config.dpi_profiles.length ≤ 5 →
      1 ≤ (appAddDpi st).1.config.dpi_profiles.length ∧
      (appAddDpi st).1.config.dpi_profiles.length ≤ 5) ∧
    (idx < st.config.dpi_profiles.length → st.config.dpi_profiles.length ≤ 5 →
      1 ≤ (appDelDpi st idx).1.config.dpi_profiles.length ∧
      (appDelDpi st idx).1.config.dpi_profiles.length ≤ 5) := by
  refine ⟨?_, ?_, ?_, ?_⟩
  · intro h; simp only [appAddDpi, if_pos h]
  · intro h; simp [appDelDpi, h]
  · intro h1 h5
    simp only [appAddDpi]
    split <;> simp only [List.length_append, List.length_singleton] <;> omega
  · intro hidx h5
    simp only [appDelDpi]
    split <;> rename_i hsplit <;> dsimp only
    · omega
    · have hlen := List.length_eraseIdx st.config.dpi_profiles idx
      rw [if_pos hidx] at hlen
      rw [hlen]
      omega

/-- Claim C7 witness: deleting from a single-profile configuration fails
with the toast and leaves the state untouched. -/
theorem C7_profile_count_bounds_witness :
    appDelDpi
      { config := { dpi_profiles := [400], active_dpi := 0, poll_rate := 1000, lod := 0 },
        saved := { dpi_profiles := [400], active_dpi := 0, poll_rate := 1000, lod := 0 } } 0 =
      ({ config := { dpi_profiles := [400], active_dpi := 0, poll_rate := 1000, lod := 0 },
         saved := { dpi_profiles := [400], active_dpi := 0, poll_rate := 1000, lod := 0 } },
       some "Need at least one profile") :=
  (C7_profile_count_bounds
    { config := { dpi_profiles := [400], active_dpi := 0, poll_rate := 1000, lod := 0 },
      saved := { dpi_profiles := [400], active_dpi := 0, poll_rate := 1000, lod := 0 } } 0).2.1 rfl

/-- Claim C9 counterexample: a file key that is not a Configuration field
survives the merge — `dict(DEFAULT_CONFIG).update(data)` copies every key
of `data` into the result, so `extra` is present in the loaded dict rather
than being ignored. -/
theorem C9_counterexample :
    getKey (load_config (some [("extra", .jint 7)])) "extra" = some (.jint 7) ∧
    load_config (some [("extra", .jint 7)]) =
      DEFAULT_CONFIG ++ [("extra", .jint 7)] := by
  decide

/-- Claim C9 as amended: for a parsed file without duplicate keys,
`load_config` returns the shallow per-key merge in which the file value
wins and missing keys fall back to the defaults — unknown keys are
retained in the result (and would be written back by the next save), not
dropped. -/
theorem C9_unknown_keys_retained (d : JObj) (hnd : (d.map Prod.fst).Nodup)
    (k : String) :
    getKey (load_config (some d)) k =
      match getKey d k with
      | some v => some v
      | none => getKey DEFAULT_CONFIG k :=
  getKey_pyUpdate d DEFAULT_CONFIG hnd k

/-- Claim C9 witness: the merge rule evaluated on a one-key file with an
unknown key. -/
theorem C9_unknown_keys_retained_witness :
    getKey (load_config (some [("extra", .jint 7)])) "extra" =
      match getKey [("extra", .jint 7)] "extra" with
      | some v => some v
      | none => getKey DEFAULT_CONFIG "extra" :=
  C9_unknown_keys_retained [("extra", .jint 7)] (by decide) "extra"

/-- Claim C10: saving a valid Configuration (exactly the four fields, with
in-range values) and loading it back returns the same dict: every key maps
to the same value, and no key appears on one side only. -/
theorem C10_round_trip (c : JObj) (h : validConfig c) :
    ∀ k : String, getKey (load_config (save_config c)) k = getKey c k := by
  obtain ⟨hnd, hkeys, ⟨l, hl, _⟩, ⟨a, l2, _, ha, _⟩, ⟨hz, hhz, _⟩, ⟨lod, hlod, _⟩⟩ := h
  intro k
  have hmerge := getKey_pyUpdate c DEFAULT_CONFIG hnd k
  have hload : load_config (save_config c) = pyUpdate DEFAULT_CONFIG c := rfl
  rw [hload, hmerge]
  cases hck : getKey c k with
  | some v => rfl
  | none =>
    have hnotin : k ∉ configKeys := by
      intro hmem
      simp only [configKeys, List.mem_cons, List.mem_singleton] at hmem
      rcases hmem with rfl | rfl | rfl | rfl | hfalse
      · rw [hck] at hl; cases hl
      · rw [hck] at ha; cases ha
      · rw [hck] at hhz; cases hhz
      · rw [hck] at hlod; cases hlod
      · cases hfalse
    have : k ∉ DEFAULT_CONFIG.map Prod.fst := by
      simpa [DEFAULT_CONFIG, configKeys] using hnotin
    simp only [getKey_eq_none_of_not_mem DEFAULT_CONFIG k this]

/-- Claim C10 witness: the default Configuration is valid and survives the
save/load round trip at its `poll_rate` key. -/
theorem C10_round_trip_witness :
    getKey (load_config (save_config DEFAULT_CONFIG)) "poll_rate" =
      getKey DEFAULT_CONFIG "poll_rate" := by
  refine C10_round_trip DEFAULT_CONFIG
    ⟨by decide, by decide,
     ⟨[400, 800, 1600, 3200], by decide, by decide, by decide, by decide⟩,
     ⟨1, [400, 800, 1600, 3200], by decide, by decide, by decide⟩,
     ⟨1000, by decide, by decide⟩,
     ⟨0, by decide, by decide⟩⟩ "poll_rate"

end BeastX
